import Mathlib

/-!
Shallow embedding of `hummingbot/smart_components/arbitrage_executor/arbitrage_executor.py`.

Python `Decimal` values are modelled by `ℚ` (exact rational arithmetic; note Lean's
convention `x / 0 = 0` where `Decimal` would raise).  Python exceptions are modelled
by `Except Unit`: a method that may raise returns `Except Unit α`, and a method that
mutates `self` before it can raise returns the state reached so far alongside the
result.  External collaborators (connectors / Market Adapters, the rate oracle, the
`SmartComponentBase.place_order` / `get_in_flight_order` helpers, gateway settings)
are not part of the source file and are modelled as an abstract environment `Env`.
-/

namespace ArbitrageExecutor

/-- `ArbitrageExecutorStatus` from `data_types.py` (values used by the source file). -/
inductive ArbitrageExecutorStatus where
  | NOT_STARTED
  | ACTIVE_ARBITRAGE
  | COMPLETED
  | FAILED
  deriving DecidableEq, Repr

open ArbitrageExecutorStatus

/-- One market of the config: an exchange (venue) name and a trading pair. -/
structure ExchangeMarket where
  exchange : String
  trading_pair : String
  deriving DecidableEq, Repr

/-- The fields of an in-flight order read by the executor: `executed_amount`
(base asset), `average_price`, `cum_fee_quote` and `is_filled`. -/
structure InFlightOrder where
  executed_amount : ℚ
  average_price : ℚ
  cum_fee_quote : ℚ
  is_filled : Bool
  deriving DecidableEq, Repr

/-- `TrackedOrder` from `position_executor/data_types.py`: an optional order id and
an optional in-flight order snapshot, both `None` until acknowledged. -/
structure TrackedOrder where
  order_id : Option String := none
  order : Option InFlightOrder := none
  deriving DecidableEq, Repr

/-- A gateway network transaction (gas) fee: an amount denominated in `token`. -/
structure NetworkFee where
  amount : ℚ
  token : String
  deriving DecidableEq, Repr

/-- The per-venue collaborator surface the executor uses (the Market Adapter).
`quote_price pair is_buy amount` models `connector.get_quote_price` and may raise;
`network_transaction_fee` is the gas fee of a gateway AMM connector;
`fee_in_token pair token is_buy amount price` collapses the source's
`connector.get_fee(...)` followed by `fee.fee_amount_in_token(...)` (taker fee,
`is_maker=False`) into one abstract function. -/
structure Connector where
  quote_price : String → Bool → ℚ → Except Unit ℚ
  network_transaction_fee : NetworkFee
  fee_in_token : String → String → Bool → ℚ → ℚ → Except Unit ℚ

/-- The environment of external collaborators:
`connectors` indexes venues by exchange name; `is_amm` models
`AllConnectorSettings.get_gateway_amm_connector_names()` membership;
`get_pair_rate s` models `RateOracle.get_instance().get_pair_rate(s)` (may fail);
`place_order exchange pair is_buy amount price` models
`SmartComponentBase.place_order`, returning the `TrackedOrder` for the new order;
`get_in_flight_order exchange order_id` models
`SmartComponentBase.get_in_flight_order`. -/
structure Env where
  connectors : String → Connector
  is_amm : String → Bool
  get_pair_rate : String → Except Unit ℚ
  place_order : String → String → Bool → ℚ → Option ℚ → TrackedOrder
  get_in_flight_order : String → String → Option InFlightOrder

/-- The mutable state of one `ArbitrageExecutor` run: the config fields copied in
`__init__`, the status, the two tracked orders, the last observed prices and
transaction cost, the failure counter, and a flag recording that
`terminate_control_loop()` has been called on the base class. -/
structure State where
  buying_market : ExchangeMarket
  selling_market : ExchangeMarket
  min_profitability : ℚ
  order_amount : ℚ
  max_retries : ℕ
  arbitrage_status : ArbitrageExecutorStatus
  buy_order : TrackedOrder
  sell_order : TrackedOrder
  last_buy_price : Option ℚ := none
  last_sell_price : Option ℚ := none
  last_tx_cost : Option ℚ := none
  cumulative_failures : ℕ := 0
  terminated : Bool := false
  deriving DecidableEq, Repr

/-- `__init__`: the state of a freshly constructed run for a given config. -/
def initState (buying selling : ExchangeMarket) (min_prof amount : ℚ)
    (retries : ℕ) : State :=
  { buying_market := buying
    selling_market := selling
    min_profitability := min_prof
    order_amount := amount
    max_retries := retries
    arbitrage_status := NOT_STARTED
    buy_order := {}
    sell_order := {} }

/-- `split_hb_trading_pair`: split `"BASE-QUOTE"` on the dash. -/
def split_hb_trading_pair (trading_pair : String) : String × String :=
  let parts := trading_pair.splitOn "-"
  (parts.headD "", (parts.drop 1).headD "")

/-- `get_resulting_price_for_amount`: delegate to the connector's quote. -/
def get_resulting_price_for_amount (env : Env) (exchange trading_pair : String)
    (is_buy : Bool) (order_amount : ℚ) : Except Unit ℚ :=
  (env.connectors exchange).quote_price trading_pair is_buy order_amount

/-- `get_buy_and_sell_prices`: fetch the buy-side and the sell-side quote for the
configured amount and join the two results (`asyncio.gather` raises if either
request raised; the concurrent scheduling itself is not representable here). -/
def get_buy_and_sell_prices (env : Env) (s : State) : Except Unit (ℚ × ℚ) :=
  match get_resulting_price_for_amount env s.buying_market.exchange
      s.buying_market.trading_pair true s.order_amount with
  | .error e => .error e
  | .ok buy_price =>
      match get_resulting_price_for_amount env s.selling_market.exchange
          s.selling_market.trading_pair false s.order_amount with
      | .error e => .error e
      | .ok sell_price => .ok (buy_price, sell_price)

/-- `get_trade_pnl_pct`: store the two quotes in `_last_buy_price` /
`_last_sell_price` and return `(sell − buy) / buy`.  If the quotes raise, no
assignment has happened yet, so the state is returned unchanged with the error. -/
def get_trade_pnl_pct (env : Env) (s : State) : State × Except Unit ℚ :=
  match get_buy_and_sell_prices env s with
  | .error e => (s, .error e)
  | .ok (buy_price, sell_price) =>
      ({ s with last_buy_price := some buy_price, last_sell_price := some sell_price },
       .ok ((sell_price - buy_price) / buy_price))

/-- `get_tx_cost_in_asset`: fetch the resulting price, then either the gas fee
converted through the rate oracle (AMM venue) or the adapter-computed taker fee
in the given asset (order-book venue).  Reads no mutable state. -/
def get_tx_cost_in_asset (env : Env) (exchange trading_pair : String)
    (is_buy : Bool) (order_amount : ℚ) (asset : String) : Except Unit ℚ :=
  match get_resulting_price_for_amount env exchange trading_pair is_buy order_amount with
  | .error e => .error e
  | .ok price =>
      if env.is_amm exchange then
        match env.get_pair_rate
            (asset ++ "-" ++ (env.connectors exchange).network_transaction_fee.token) with
        | .error e => .error e
        | .ok conversion_price =>
            .ok ((env.connectors exchange).network_transaction_fee.amount / conversion_price)
      else
        (env.connectors exchange).fee_in_token trading_pair asset is_buy order_amount price

/-- `get_tx_cost_pct`: compute the buy-leg and sell-leg fees in the buy pair's
base asset, record their sum in `_last_tx_cost`, and return the sum divided by
the order amount.  If either fee computation raises, `_last_tx_cost` is not
assigned and the state is returned unchanged with the error. -/
def get_tx_cost_pct (env : Env) (s : State) : State × Except Unit ℚ :=
  let base := (split_hb_trading_pair s.buying_market.trading_pair).1
  match get_tx_cost_in_asset env s.buying_market.exchange s.buying_market.trading_pair
      true s.order_amount base with
  | .error e => (s, .error e)
  | .ok buy_fee =>
      match get_tx_cost_in_asset env s.selling_market.exchange
          s.selling_market.trading_pair false s.order_amount base with
      | .error e => (s, .error e)
      | .ok sell_fee =>
          ({ s with last_tx_cost := some (buy_fee + sell_fee) },
           .ok ((buy_fee + sell_fee) / s.order_amount))

/-- `place_buy_arbitrage_order`: submit a market BUY for the configured amount on
the buying market, with the last observed buy price as reference, and store the
returned `TrackedOrder` in `buy_order`. -/
def place_buy_arbitrage_order (env : Env) (s : State) : State :=
  { s with buy_order := (env.place_order s.buying_market.exchange
      s.buying_market.trading_pair true s.order_amount s.last_buy_price) }

/-- `place_sell_arbitrage_order`: submit a market SELL for the configured amount on
the selling market, with the last observed sell price as reference, and store the
returned `TrackedOrder` in `sell_order`. -/
def place_sell_arbitrage_order (env : Env) (s : State) : State :=
  { s with sell_order := (env.place_order s.selling_market.exchange
      s.selling_market.trading_pair false s.order_amount s.last_sell_price) }

/-- `execute_arbitrage`: set the status to `ACTIVE_ARBITRAGE`, then place the buy
order and the sell order. -/
def execute_arbitrage (env : Env) (s : State) : State :=
  place_sell_arbitrage_order env
    (place_buy_arbitrage_order env { s with arbitrage_status := ACTIVE_ARBITRAGE })

/-- Accessing `tracked.order.is_filled` in Python raises `AttributeError` when the
snapshot is still `None`; here that read returns `Except`. -/
def order_is_filled (t : TrackedOrder) : Except Unit Bool :=
  match t.order with
  | some o => .ok o.is_filled
  | none => .error ()

/-- `check_order_status`: if both orders report filled (with Python's
short-circuit `and`), transition to `COMPLETED` and terminate the control loop. -/
def check_order_status (s : State) : Except Unit State :=
  match order_is_filled s.buy_order with
  | .error e => .error e
  | .ok buy_filled =>
      if buy_filled then
        match order_is_filled s.sell_order with
        | .error e => .error e
        | .ok sell_filled =>
            if sell_filled then
              .ok { s with arbitrage_status := COMPLETED, terminated := true }
            else
              .ok s
      else
        .ok s

/-- The `NOT_STARTED` branch of `control_task`: the whole evaluation (and the
`execute_arbitrage` it may trigger) sits in a `try/except Exception` that
absorbs every exception, so the branch always returns the state reached when
the body finished or raised: the trade PnL, then the fee percentage, then —
only if `profitability > min_profitability` — the execution. -/
def not_started_step (env : Env) (s : State) : State :=
  match get_trade_pnl_pct env s with
  | (s1, .error _) => s1
  | (s1, .ok trade_pnl_pct) =>
      match get_tx_cost_pct env s1 with
      | (s2, .error _) => s2
      | (s2, .ok fee_pct) =>
          if trade_pnl_pct - fee_pct > s2.min_profitability then
            execute_arbitrage env s2
          else
            s2

/-- `control_task`, the per-tick step function.  In `NOT_STARTED` the evaluation
runs under `try/except` (see `not_started_step`); in `ACTIVE_ARBITRAGE` the
retry budget is tested before the order status; in the terminal statuses
nothing happens.  An `Except.error` result models an exception escaping
`control_task` (only possible from `check_order_status`). -/
def control_task (env : Env) (s : State) : Except Unit State :=
  if s.arbitrage_status = NOT_STARTED then
    .ok (not_started_step env s)
  else if s.arbitrage_status = ACTIVE_ARBITRAGE then
    if s.cumulative_failures > s.max_retries then
      .ok { s with arbitrage_status := FAILED, terminated := true }
    else
      check_order_status s
  else
    .ok s

/-- `net_pnl`: in `COMPLETED`, sell notional minus buy notional minus the two
cumulative fees; in any other status, `Decimal("0")`.  `none` models the
`AttributeError` raised when a snapshot is missing in `COMPLETED`. -/
def net_pnl (s : State) : Option ℚ :=
  if s.arbitrage_status = COMPLETED then
    match s.buy_order.order, s.sell_order.order with
    | some bo, some so =>
        some (so.executed_amount * so.average_price
          - bo.executed_amount * bo.average_price
          - (bo.cum_fee_quote + so.cum_fee_quote))
    | _, _ => none
  else
    some 0

/-- `net_pnl_pct`: in `COMPLETED`, `net_pnl` divided by the buy order's executed
amount; in any other status, `Decimal("0")`. -/
def net_pnl_pct (s : State) : Option ℚ :=
  if s.arbitrage_status = COMPLETED then
    match net_pnl s, s.buy_order.order with
    | some p, some bo => some (p / bo.executed_amount)
    | _, _ => none
  else
    some 0

/-- `process_order_created_event`: match the event's order id against the buy
then the sell tracked order and attach the in-flight order snapshot. -/
def process_order_created_event (env : Env) (event_order_id : String)
    (s : State) : State :=
  if s.buy_order.order_id = some event_order_id then
    { s with buy_order := { s.buy_order with
        order := env.get_in_flight_order s.buying_market.exchange event_order_id } }
  else if s.sell_order.order_id = some event_order_id then
    { s with sell_order := { s.sell_order with
        order := env.get_in_flight_order s.selling_market.exchange event_order_id } }
  else
    s

/-- `process_order_failed_event`: match the event's order id against the buy then
the sell tracked order; on a match, immediately resubmit that leg and increment
`_cumulative_failures` by 1. -/
def process_order_failed_event (env : Env) (event_order_id : String)
    (s : State) : State :=
  if s.buy_order.order_id = some event_order_id then
    let s1 := place_buy_arbitrage_order env s
    { s1 with cumulative_failures := s1.cumulative_failures + 1 }
  else if s.sell_order.order_id = some event_order_id then
    let s1 := place_sell_arbitrage_order env s
    { s1 with cumulative_failures := s1.cumulative_failures + 1 }
  else
    s

/-- Rendering of a `Decimal` in an f-string; the exact digit format is
irrelevant to the claims, `ℚ`'s `toString` stands in for it (kept opaque to
elaboration so that the report text is treated as uninterpreted). -/
@[irreducible] def decimalStr (q : ℚ) : String := toString q

/-- Rendering of an optional `Decimal` field in an f-string: Python prints
`None` for a missing value and the decimal's text otherwise. -/
def reprOptPrice : Option ℚ → String
  | some q => decimalStr q
  | none => "None"

/-- `str` of the Python status enum member. -/
def statusStr : ArbitrageExecutorStatus → String
  | NOT_STARTED => "ArbitrageExecutorStatus.NOT_STARTED"
  | ACTIVE_ARBITRAGE => "ArbitrageExecutorStatus.ACTIVE_ARBITRAGE"
  | COMPLETED => "ArbitrageExecutorStatus.COMPLETED"
  | FAILED => "ArbitrageExecutorStatus.FAILED"

/-- The first f-string of `to_format_status` (leading newline included; kept
opaque to elaboration, whose reduction degrades on long append chains — the
claims treat the rendered text as uninterpreted data). -/
@[irreducible] def statusHeaderText (s : State) (trade_pnl_pct tx_cost_pct : ℚ) : String :=
  "\nBuy:\n    Exchange: " ++ s.buying_market.exchange
    ++ " | Trading Pair: " ++ s.buying_market.trading_pair
    ++ " | Price: " ++ reprOptPrice s.last_buy_price
    ++ "\nSell\n    Exchange: " ++ s.selling_market.exchange
    ++ " | Trading Pair: " ++ s.selling_market.trading_pair
    ++ " | Price: " ++ reprOptPrice s.last_sell_price
    ++ "\nOrder Amount: " ++ decimalStr s.order_amount
    ++ "\nReal-time Profit analysis:\n    Trade PnL (%): " ++ decimalStr trade_pnl_pct
    ++ " | TX Cost (%): " ++ decimalStr tx_cost_pct
    ++ "\n    Net PnL (%): " ++ decimalStr (trade_pnl_pct - tx_cost_pct)
    ++ "\nArbitrage Status: " ++ statusStr s.arbitrage_status

/-- The second f-string of `to_format_status` (only rendered when `COMPLETED`;
opaque to elaboration like `statusHeaderText`). -/
@[irreducible] def totalProfitText (pnl_pct pnl : ℚ) (quote : String) : String :=
  "\nTotal Profit (%): " ++ decimalStr pnl_pct
    ++ " | Total Profit (" ++ quote ++ "): " ++ decimalStr pnl ++ "\n"

/-- Python's `list.extend(string)` appends the string's CHARACTERS one by one;
this models `lines.extend(f"...")` on the list of accumulated elements. -/
def extendWithChars (lines : List String) (text : String) : List String :=
  lines ++ text.toList.map (fun c => String.mk [c])

/-- Arithmetic on an optional operand raises in Python (`None` in an
expression): `none` models that `TypeError`. -/
def reqPrice : Option ℚ → Except Unit ℚ
  | some q => .ok q
  | none => .error ()

/-- `to_format_status`: compute the live trade-PnL and cost percentages from the
last observations, `lines.extend` the header f-string, `lines.extend` the
total-profit f-string when `COMPLETED`, and return `"\n".join(lines)`.
Because `extend` iterates the f-string character by character, the join
inserts a newline between every two characters. -/
def to_format_status (s : State) : Except Unit String :=
  match reqPrice s.last_sell_price with
  | .error e => .error e
  | .ok last_sell =>
      match reqPrice s.last_buy_price with
      | .error e => .error e
      | .ok last_buy =>
          let trade_pnl_pct := (last_sell - last_buy) / last_buy
          match reqPrice s.last_tx_cost with
          | .error e => .error e
          | .ok last_cost =>
              let tx_cost_pct := last_cost / s.order_amount
              let quote := (split_hb_trading_pair s.buying_market.trading_pair).2
              let lines := extendWithChars [] (statusHeaderText s trade_pnl_pct tx_cost_pct)
              if s.arbitrage_status = COMPLETED then
                match net_pnl_pct s, net_pnl s with
                | some pnl_pct, some pnl =>
                    .ok (String.intercalate "\n"
                      (extendWithChars lines (totalProfitText pnl_pct pnl quote)))
                | _, _ => .error ()
              else
                .ok (String.intercalate "\n" lines)

/-! ### Derived notions and concrete test fixtures -/

/-- Position of a status along `NOT_STARTED → ACTIVE_ARBITRAGE → {COMPLETED, FAILED}`. -/
def statusRank : ArbitrageExecutorStatus → ℕ
  | NOT_STARTED => 0
  | ACTIVE_ARBITRAGE => 1
  | COMPLETED => 2
  | FAILED => 2

/-- Both tracked orders have an acknowledged snapshot and both report filled. -/
def bothFilled (s : State) : Bool :=
  match s.buy_order.order, s.sell_order.order with
  | some bo, some so => bo.is_filled && so.is_filled
  | _, _ => false

/-- A deterministic test environment: quotes are 100 on the buy side and 101 on
the sell side, venues are order-book ones with a taker fee of 1/40 in base
asset, and order placement returns a deterministic id with no snapshot yet. -/
def exEnv : Env where
  connectors := fun _ =>
    { quote_price := fun _ is_buy _ => .ok (if is_buy then 100 else 101)
      network_transaction_fee := { amount := 1, token := "ETH" }
      fee_in_token := fun _ _ _ _ _ => .ok (1 / 40) }
  is_amm := fun _ => false
  get_pair_rate := fun _ => .ok 2
  place_order := fun exch pair is_buy _ _ =>
    { order_id := some (exch ++ ":" ++ pair ++ ":" ++ (if is_buy then "B" else "S"))
      order := none }
  get_in_flight_order := fun _ _ => some { executed_amount := 10, average_price := 100, cum_fee_quote := 1, is_filled := true }

/-- A freshly constructed run: amount 10, `min_profitability` 0.3 %, 2 retries. -/
def exConfigState : State :=
  initState { exchange := "kucoin", trading_pair := "WETH-USDT" }
    { exchange := "binance", trading_pair := "WETH-USDT" } (3 / 1000) 10 2

/-- An active run whose two legs are acknowledged and filled. -/
def exActiveBothFilled : State :=
  { exConfigState with
    arbitrage_status := ACTIVE_ARBITRAGE
    buy_order := { order_id := some "b1", order := some { executed_amount := 10, average_price := 100, cum_fee_quote := 1, is_filled := true } }
    sell_order := { order_id := some "s1", order := some { executed_amount := 10, average_price := 101, cum_fee_quote := 1, is_filled := true } } }

/-- The run of `exActiveBothFilled` after three leg failures (`max_retries = 2`). -/
def exActiveFailures : State :=
  { exActiveBothFilled with cumulative_failures := 3 }

/-- A completed run with the fills of the spec's Scenario C. -/
def exCompletedState : State :=
  { exActiveBothFilled with arbitrage_status := COMPLETED, terminated := true }

/-! ### Frame lemmas on the embedded operations -/

lemma get_trade_pnl_pct_fst_eq (env : Env) (s : State) (s1 : State)
    (r1 : Except Unit ℚ) (h : get_trade_pnl_pct env s = (s1, r1)) :
    s1.arbitrage_status = s.arbitrage_status ∧
    s1.buy_order = s.buy_order ∧
    s1.sell_order = s.sell_order ∧
    s1.cumulative_failures = s.cumulative_failures ∧
    s1.min_profitability = s.min_profitability ∧
    s1.order_amount = s.order_amount ∧
    s1.max_retries = s.max_retries ∧
    s1.buying_market = s.buying_market ∧
    s1.selling_market = s.selling_market ∧
    s1.terminated = s.terminated := by
  unfold get_trade_pnl_pct at h
  rcases hq : get_buy_and_sell_prices env s with e | ⟨bp, sp⟩ <;>
    rw [hq] at h <;> injection h with h1 h2 <;> subst h1 <;> simp

lemma get_tx_cost_pct_fst_eq (env : Env) (s : State) (s2 : State)
    (r2 : Except Unit ℚ) (h : get_tx_cost_pct env s = (s2, r2)) :
    s2.arbitrage_status = s.arbitrage_status ∧
    s2.buy_order = s.buy_order ∧
    s2.sell_order = s.sell_order ∧
    s2.cumulative_failures = s.cumulative_failures ∧
    s2.min_profitability = s.min_profitability ∧
    s2.order_amount = s.order_amount ∧
    s2.max_retries = s.max_retries ∧
    s2.buying_market = s.buying_market ∧
    s2.selling_market = s.selling_market ∧
    s2.terminated = s.terminated := by
  simp only [get_tx_cost_pct] at h
  rcases hb : get_tx_cost_in_asset env s.buying_market.exchange
      s.buying_market.trading_pair true s.order_amount
      (split_hb_trading_pair s.buying_market.trading_pair).1 with e | bf <;>
    rw [hb] at h
  · injection h with h1 h2; subst h1; simp
  · rcases hs : get_tx_cost_in_asset env s.selling_market.exchange
        s.selling_market.trading_pair false s.order_amount
        (split_hb_trading_pair s.buying_market.trading_pair).1 with e | sf <;>
      rw [hs] at h <;> injection h with h1 h2 <;> subst h1 <;> simp

lemma execute_arbitrage_fields (env : Env) (s : State) :
    (execute_arbitrage env s).arbitrage_status = ACTIVE_ARBITRAGE ∧
    (execute_arbitrage env s).cumulative_failures = s.cumulative_failures := by
  constructor <;> rfl

lemma check_order_status_ok_cases (s s' : State) (h : check_order_status s = .ok s') :
    s' = s ∨ (bothFilled s = true ∧
      s' = { s with arbitrage_status := COMPLETED, terminated := true }) := by
  unfold check_order_status order_is_filled at h
  rcases hb : s.buy_order.order with _ | bo <;> rw [hb] at h
  · simp at h
  · rcases hbf : bo.is_filled <;> simp only [hbf] at h
    · left; simp at h; exact h.symm
    · rcases hs : s.sell_order.order with _ | so <;> rw [hs] at h
      · simp at h
      · rcases hsf : so.is_filled <;> simp only [hsf] at h
        · left; simp at h; exact h.symm
        · right
          refine ⟨by simp [bothFilled, hb, hs, hbf, hsf], ?_⟩
          simp at h; exact h.symm

lemma check_order_status_both (s : State) (h : bothFilled s = true) :
    check_order_status s = .ok { s with arbitrage_status := COMPLETED, terminated := true } := by
  unfold bothFilled at h
  rcases hb : s.buy_order.order with _ | bo <;> rw [hb] at h
  · simp at h
  · rcases hs : s.sell_order.order with _ | so <;> rw [hs] at h
    · simp at h
    · simp at h
      unfold check_order_status order_is_filled
      rw [hb, hs]
      simp [h.1, h.2]

lemma check_order_status_not_both (s : State) (h : bothFilled s = false) :
    check_order_status s = .ok s ∨ check_order_status s = .error () := by
  unfold bothFilled at h
  unfold check_order_status order_is_filled
  rcases hb : s.buy_order.order with _ | bo
  · right; simp
  · rcases hbf : bo.is_filled <;> simp only [hb, hbf] at h ⊢
    · left; simp
    · rcases hs : s.sell_order.order with _ | so
      · right; simp
      · rcases hsf : so.is_filled <;> simp only [hs, hsf] at h ⊢
        · left; simp
        · simp [hbf] at h

lemma control_task_failures_eq (env : Env) (s s' : State)
    (h : control_task env s = .ok s') :
    s'.cumulative_failures = s.cumulative_failures := by
  unfold control_task at h
  by_cases h0 : s.arbitrage_status = NOT_STARTED
  · rw [if_pos h0] at h
    injection h with h1; subst h1
    unfold not_started_step
    rcases h1 : get_trade_pnl_pct env s with ⟨s1, r1⟩
    have f1 := get_trade_pnl_pct_fst_eq env s s1 r1 h1
    rcases r1 with e | tp
    · exact f1.2.2.2.1
    · show (match get_tx_cost_pct env s1 with
          | (s2, Except.error _) => s2
          | (s2, Except.ok fee_pct) =>
              if tp - fee_pct > s2.min_profitability then execute_arbitrage env s2
              else s2).cumulative_failures = s.cumulative_failures
      rcases h2 : get_tx_cost_pct env s1 with ⟨s2, r2⟩
      have f2 := get_tx_cost_pct_fst_eq env s1 s2 r2 h2
      rcases r2 with e | fp
      · show s2.cumulative_failures = s.cumulative_failures
        rw [f2.2.2.2.1, f1.2.2.2.1]
      · show (if tp - fp > s2.min_profitability then execute_arbitrage env s2 else s2).cumulative_failures = s.cumulative_failures
        split
        · rw [(execute_arbitrage_fields env s2).2, f2.2.2.2.1, f1.2.2.2.1]
        · rw [f2.2.2.2.1, f1.2.2.2.1]
  · rw [if_neg h0] at h
    by_cases h1 : s.arbitrage_status = ACTIVE_ARBITRAGE
    · rw [if_pos h1] at h
      by_cases h2 : s.cumulative_failures > s.max_retries
      · rw [if_pos h2] at h; injection h with h3; subst h3; rfl
      · rw [if_neg h2] at h
        rcases check_order_status_ok_cases s s' h with h3 | ⟨_, h3⟩ <;> subst h3 <;> rfl
    · rw [if_neg h1] at h; injection h with h3; subst h3; rfl

lemma control_task_terminal (env : Env) (s : State)
    (h : s.arbitrage_status = COMPLETED ∨ s.arbitrage_status = FAILED) :
    control_task env s = .ok s := by
  have h0 : ¬ s.arbitrage_status = NOT_STARTED := by
    rcases h with h | h <;> rw [h] <;> intro hc <;> cases hc
  have h1 : ¬ s.arbitrage_status = ACTIVE_ARBITRAGE := by
    rcases h with h | h <;> rw [h] <;> intro hc <;> cases hc
  unfold control_task
  rw [if_neg h0, if_neg h1]

lemma get_trade_pnl_pct_ok (env : Env) (s : State) (bp sp : ℚ)
    (h : get_buy_and_sell_prices env s = .ok (bp, sp)) :
    get_trade_pnl_pct env s =
      ({ s with last_buy_price := some bp, last_sell_price := some sp },
       .ok ((sp - bp) / bp)) := by
  unfold get_trade_pnl_pct
  rw [h]

lemma get_tx_cost_pct_ok (env : Env) (s : State) (bf sf : ℚ)
    (hb : get_tx_cost_in_asset env s.buying_market.exchange
      s.buying_market.trading_pair true s.order_amount
      (split_hb_trading_pair s.buying_market.trading_pair).1 = .ok bf)
    (hs : get_tx_cost_in_asset env s.selling_market.exchange
      s.selling_market.trading_pair false s.order_amount
      (split_hb_trading_pair s.buying_market.trading_pair).1 = .ok sf) :
    get_tx_cost_pct env s =
      ({ s with last_tx_cost := some (bf + sf) },
       .ok ((bf + sf) / s.order_amount)) := by
  simp only [get_tx_cost_pct]
  rw [hb, hs]

lemma not_started_step_of_error (env : Env) (s : State)
    (herr : (get_trade_pnl_pct env s).2 = .error () ∨
      (get_tx_cost_pct env (get_trade_pnl_pct env s).1).2 = .error ()) :
    not_started_step env s = (get_trade_pnl_pct env s).1 ∨
    not_started_step env s = (get_tx_cost_pct env (get_trade_pnl_pct env s).1).1 := by
  unfold not_started_step
  rcases h1 : get_trade_pnl_pct env s with ⟨s1, r1⟩
  rw [h1] at herr
  rcases r1 with e | tp
  · left; rfl
  · right
    rcases herr with h | h
    · exact Except.noConfusion h
    · show (match get_tx_cost_pct env s1 with
          | (s2, Except.error _) => s2
          | (s2, Except.ok fee_pct) =>
              if tp - fee_pct > s2.min_profitability then execute_arbitrage env s2
              else s2) = (get_tx_cost_pct env s1).1
      rcases h2 : get_tx_cost_pct env s1 with ⟨s2, r2⟩
      rw [h2] at h
      simp at h
      subst h
      rfl

/-- A variant of `exEnv` whose quote requests always fail, modelling
`QuoteUnavailable` from the Market Adapter. -/
def exEnvQuoteFail : Env :=
  { exEnv with
    connectors := fun _ =>
      { quote_price := fun _ _ _ => .error ()
        network_transaction_fee := { amount := 1, token := "ETH" }
        fee_in_token := fun _ _ _ _ _ => .ok (1 / 40) } }

/-! ### Claim theorems -/

/-- C2: from `NOT_STARTED`, when both quotes and both leg fee computations
succeed, one invocation of `control_task` transitions to `ACTIVE_ARBITRAGE`
and submits both legs if and only if the net profitability — the spread
`(sellPrice − buyPrice) / buyPrice` minus the transaction-cost fraction
`(buyFee + sellFee) / orderAmount` — is strictly greater than
`min_profitability`; when it is less than or equal, the run remains
`NOT_STARTED` and both tracked orders are unchanged (no orders submitted). -/
theorem claim_not_started_profitability_gate (env : Env) (s : State) (bp sp bf sf : ℚ)
    (hst : s.arbitrage_status = NOT_STARTED)
    (hq : get_buy_and_sell_prices env s = .ok (bp, sp))
    (hbf : get_tx_cost_in_asset env s.buying_market.exchange
      s.buying_market.trading_pair true s.order_amount
      (split_hb_trading_pair s.buying_market.trading_pair).1 = .ok bf)
    (hsf : get_tx_cost_in_asset env s.selling_market.exchange
      s.selling_market.trading_pair false s.order_amount
      (split_hb_trading_pair s.buying_market.trading_pair).1 = .ok sf) :
    ((sp - bp) / bp - (bf + sf) / s.order_amount > s.min_profitability →
      ∃ s2, control_task env s = .ok s2 ∧
        s2.arbitrage_status = ACTIVE_ARBITRAGE ∧
        s2.buy_order = env.place_order s.buying_market.exchange
          s.buying_market.trading_pair true s.order_amount (some bp) ∧
        s2.sell_order = env.place_order s.selling_market.exchange
          s.selling_market.trading_pair false s.order_amount (some sp) ∧
        s2.cumulative_failures = s.cumulative_failures) ∧
    ((sp - bp) / bp - (bf + sf) / s.order_amount ≤ s.min_profitability →
      ∃ s2, control_task env s = .ok s2 ∧
        s2.arbitrage_status = NOT_STARTED ∧
        s2.buy_order = s.buy_order ∧
        s2.sell_order = s.sell_order ∧
        s2.last_buy_price = some bp ∧
        s2.last_sell_price = some sp ∧
        s2.last_tx_cost = some (bf + sf)) := by
  have e1 := get_trade_pnl_pct_ok env s bp sp hq
  have hb1 : get_tx_cost_in_asset env
      ({ s with last_buy_price := some bp, last_sell_price := some sp } : State).buying_market.exchange
      ({ s with last_buy_price := some bp, last_sell_price := some sp } : State).buying_market.trading_pair
      true ({ s with last_buy_price := some bp, last_sell_price := some sp } : State).order_amount
      (split_hb_trading_pair ({ s with last_buy_price := some bp, last_sell_price := some sp } : State).buying_market.trading_pair).1 = .ok bf := hbf
  have hs1 : get_tx_cost_in_asset env
      ({ s with last_buy_price := some bp, last_sell_price := some sp } : State).selling_market.exchange
      ({ s with last_buy_price := some bp, last_sell_price := some sp } : State).selling_market.trading_pair
      false ({ s with last_buy_price := some bp, last_sell_price := some sp } : State).order_amount
      (split_hb_trading_pair ({ s with last_buy_price := some bp, last_sell_price := some sp } : State).buying_market.trading_pair).1 = .ok sf := hsf
  have e2 := get_tx_cost_pct_ok env
    { s with last_buy_price := some bp, last_sell_price := some sp } bf sf hb1 hs1
  have hrun : not_started_step env s =
      (if (sp - bp) / bp - (bf + sf) / s.order_amount > s.min_profitability then
        execute_arbitrage env
          { s with last_buy_price := some bp, last_sell_price := some sp,
                   last_tx_cost := some (bf + sf) }
      else
        { s with last_buy_price := some bp, last_sell_price := some sp,
                 last_tx_cost := some (bf + sf) }) := by
    unfold not_started_step
    rw [e1]
    show (match get_tx_cost_pct env
        { s with last_buy_price := some bp, last_sell_price := some sp } with
      | (s2, Except.error _) => s2
      | (s2, Except.ok fee_pct) =>
          if (sp - bp) / bp - fee_pct > s2.min_profitability then execute_arbitrage env s2
          else s2) = _
    rw [e2]
  have hctl : control_task env s = .ok (not_started_step env s) := by
    unfold control_task
    rw [if_pos hst]
  constructor
  · intro hgt
    refine ⟨execute_arbitrage env
      { s with last_buy_price := some bp, last_sell_price := some sp,
               last_tx_cost := some (bf + sf) }, ?_, rfl, rfl, rfl, rfl⟩
    rw [hctl, hrun, if_pos hgt]
  · intro hle
    refine ⟨{ s with last_buy_price := some bp, last_sell_price := some sp, last_tx_cost := some (bf + sf) }, ?_, hst, rfl, rfl, rfl, rfl, rfl⟩
    rw [hctl, hrun, if_neg (not_lt.mpr hle)]

/-- Witness for C2, after the spec's Scenario A: buy quote 100, sell quote 101,
amount 10, fees 1/40 per leg (cost 0.5 %), `min_profitability` 0.3 %: the net
1 % − 0.5 % = 0.5 % > 0.3 % and the step starts the arbitrage. -/
theorem claim_not_started_profitability_gate_witness :
    ∃ s2, control_task exEnv exConfigState = .ok s2 ∧
      s2.arbitrage_status = ACTIVE_ARBITRAGE ∧
      s2.buy_order = exEnv.place_order "kucoin" "WETH-USDT" true 10 (some 100) ∧
      s2.sell_order = exEnv.place_order "binance" "WETH-USDT" false 10 (some 101) ∧
      s2.cumulative_failures = 0 :=
  (claim_not_started_profitability_gate exEnv exConfigState 100 101 (1/40) (1/40)
    rfl rfl rfl rfl).1 (by norm_num [exConfigState, initState])

/-- C6: any exception during the profitability evaluation in `NOT_STARTED`
(quote or fee computation failure) is absorbed by the `try/except`: the step
returns normally (`Except.ok`, nothing escapes to the driver), the status
stays `NOT_STARTED`, both tracked orders are unchanged (no orders submitted),
and `cumulative_failures` is unchanged. -/
theorem claim_eval_error_absorbed (env : Env) (s : State)
    (hst : s.arbitrage_status = NOT_STARTED)
    (herr : (get_trade_pnl_pct env s).2 = .error () ∨
      (get_tx_cost_pct env (get_trade_pnl_pct env s).1).2 = .error ()) :
    ∃ s', control_task env s = .ok s' ∧
      s'.arbitrage_status = NOT_STARTED ∧
      s'.buy_order = s.buy_order ∧
      s'.sell_order = s.sell_order ∧
      s'.cumulative_failures = s.cumulative_failures := by
  have f1 := get_trade_pnl_pct_fst_eq env s
    (get_trade_pnl_pct env s).1 (get_trade_pnl_pct env s).2 rfl
  have f2 := get_tx_cost_pct_fst_eq env (get_trade_pnl_pct env s).1
    (get_tx_cost_pct env (get_trade_pnl_pct env s).1).1
    (get_tx_cost_pct env (get_trade_pnl_pct env s).1).2 rfl
  have hctl : control_task env s = .ok (not_started_step env s) := by
    unfold control_task
    rw [if_pos hst]
  rcases not_started_step_of_error env s herr with h | h
  · exact ⟨not_started_step env s, hctl,
      by rw [h, f1.1]; exact hst,
      by rw [h, f1.2.1],
      by rw [h, f1.2.2.1],
      by rw [h, f1.2.2.2.1]⟩
  · exact ⟨not_started_step env s, hctl,
      by rw [h, f2.1, f1.1]; exact hst,
      by rw [h, f2.2.1, f1.2.1],
      by rw [h, f2.2.2.1, f1.2.2.1],
      by rw [h, f2.2.2.2.1, f1.2.2.2.1]⟩

/-- Witness for C6: with a Market Adapter whose quotes always fail, the fresh
run steps without error, stays `NOT_STARTED`, and submits nothing. -/
theorem claim_eval_error_absorbed_witness :
    ∃ s', control_task exEnvQuoteFail exConfigState = .ok s' ∧
      s'.arbitrage_status = NOT_STARTED ∧
      s'.buy_order = exConfigState.buy_order ∧
      s'.sell_order = exConfigState.sell_order ∧
      s'.cumulative_failures = exConfigState.cumulative_failures :=
  claim_eval_error_absorbed exEnvQuoteFail exConfigState rfl (Or.inl rfl)

/-- C5: the status is monotonic along `NOT_STARTED → ACTIVE_ARBITRAGE →
{COMPLETED, FAILED}`: no invocation of the step function `control_task` that
returns moves the status backward, and once the status is `COMPLETED` or
`FAILED` the step function returns the state unchanged (terminal statuses are
absorbing). -/
theorem claim_status_monotonic_terminal_absorbing (env : Env) (s : State) :
    (∀ s', control_task env s = .ok s' →
      statusRank s.arbitrage_status ≤ statusRank s'.arbitrage_status) ∧
    (s.arbitrage_status = COMPLETED ∨ s.arbitrage_status = FAILED →
      control_task env s = .ok s) := by
  constructor
  · intro s' h
    by_cases h0 : s.arbitrage_status = NOT_STARTED
    · rw [h0]; exact Nat.zero_le _
    · by_cases h1 : s.arbitrage_status = ACTIVE_ARBITRAGE
      · unfold control_task at h
        rw [if_neg h0, if_pos h1] at h
        by_cases h2 : s.cumulative_failures > s.max_retries
        · rw [if_pos h2] at h
          injection h with h3
          subst h3
          rw [h1]
          exact Nat.le_succ 1
        · rw [if_neg h2] at h
          rcases check_order_status_ok_cases s s' h with h3 | ⟨_, h3⟩
          · rw [h3]
          · subst h3
            rw [h1]
            exact Nat.le_succ 1
      · have ht : s.arbitrage_status = COMPLETED ∨ s.arbitrage_status = FAILED := by
          cases hst : s.arbitrage_status <;> simp_all
        rw [control_task_terminal env s ht] at h
        injection h with h3
        subst h3
        exact le_refl _
  · exact control_task_terminal env s

/-- Witness for C5: at a concrete completed run, `control_task` is the identity. -/
theorem claim_status_monotonic_terminal_absorbing_witness :
    control_task exEnv exCompletedState = .ok exCompletedState :=
  (claim_status_monotonic_terminal_absorbing exEnv exCompletedState).2 (Or.inl rfl)

/-- C1: from `ACTIVE_ARBITRAGE`, one invocation of `control_task` transitions
to `FAILED` exactly when `cumulative_failures > max_retries` (tested first, so
`FAILED` results even when both legs are filled); otherwise it transitions to
`COMPLETED` exactly when both legs' orders report filled; otherwise the state —
in particular the status — is left unchanged (or the snapshot access raises,
mutating nothing).  In both terminal cases `terminated` records that the
control loop was signalled to stop. -/
theorem claim_active_step_cases (env : Env) (s : State)
    (hact : s.arbitrage_status = ACTIVE_ARBITRAGE) :
    (s.cumulative_failures > s.max_retries →
      control_task env s = .ok { s with arbitrage_status := FAILED, terminated := true }) ∧
    (s.cumulative_failures ≤ s.max_retries → bothFilled s = true →
      control_task env s = .ok { s with arbitrage_status := COMPLETED, terminated := true }) ∧
    (s.cumulative_failures ≤ s.max_retries → bothFilled s = false →
      control_task env s = .ok s ∨ control_task env s = .error ()) := by
  have h0 : ¬ s.arbitrage_status = NOT_STARTED := by
    rw [hact]; intro hc; cases hc
  refine ⟨?_, ?_, ?_⟩
  · intro hgt
    unfold control_task
    rw [if_neg h0, if_pos hact, if_pos hgt]
  · intro hle hbf
    unfold control_task
    rw [if_neg h0, if_pos hact, if_neg (by omega : ¬ s.cumulative_failures > s.max_retries)]
    exact check_order_status_both s hbf
  · intro hle hbf
    unfold control_task
    rw [if_neg h0, if_pos hact, if_neg (by omega : ¬ s.cumulative_failures > s.max_retries)]
    exact check_order_status_not_both s hbf

/-- Witness for C1: with `cumulative_failures = 3 > max_retries = 2` and both
legs already filled, the step still transitions to `FAILED` and stops the loop. -/
theorem claim_active_step_cases_witness :
    control_task exEnv exActiveFailures =
      .ok { exActiveFailures with arbitrage_status := FAILED, terminated := true } :=
  (claim_active_step_cases exEnv exActiveFailures rfl).1 (by decide)

/-- C3: a failure notification whose order id matches a leg's current order
resubmits that same leg (same venue, trading pair, side and amount) and
increments `cumulative_failures` by exactly 1, leaving every other field — in
particular the whole other leg — unchanged (stated as a full-state record
equality); and `cumulative_failures` never decreases under any operation of
the executor. -/
theorem claim_order_failed_retries_leg (env : Env) (oid : String) (s : State) :
    (s.buy_order.order_id = some oid →
      process_order_failed_event env oid s =
        { s with
            buy_order := (env.place_order s.buying_market.exchange
              s.buying_market.trading_pair true s.order_amount s.last_buy_price),
            cumulative_failures := s.cumulative_failures + 1 }) ∧
    (¬ s.buy_order.order_id = some oid → s.sell_order.order_id = some oid →
      process_order_failed_event env oid s =
        { s with
            sell_order := (env.place_order s.selling_market.exchange
              s.selling_market.trading_pair false s.order_amount s.last_sell_price),
            cumulative_failures := s.cumulative_failures + 1 }) ∧
    (¬ s.buy_order.order_id = some oid → ¬ s.sell_order.order_id = some oid →
      process_order_failed_event env oid s = s) ∧
    s.cumulative_failures ≤ (process_order_failed_event env oid s).cumulative_failures ∧
    s.cumulative_failures = (process_order_created_event env oid s).cumulative_failures ∧
    s.cumulative_failures = (place_buy_arbitrage_order env s).cumulative_failures ∧
    s.cumulative_failures = (place_sell_arbitrage_order env s).cumulative_failures ∧
    s.cumulative_failures = (execute_arbitrage env s).cumulative_failures ∧
    (∀ s', check_order_status s = .ok s' →
      s.cumulative_failures = s'.cumulative_failures) ∧
    (∀ s', control_task env s = .ok s' →
      s.cumulative_failures ≤ s'.cumulative_failures) := by
  refine ⟨?_, ?_, ?_, ?_, ?_, rfl, rfl, rfl, ?_, ?_⟩
  · intro h
    unfold process_order_failed_event place_buy_arbitrage_order
    rw [if_pos h]
  · intro hb h
    unfold process_order_failed_event place_sell_arbitrage_order
    rw [if_neg hb, if_pos h]
  · intro hb hs
    unfold process_order_failed_event
    rw [if_neg hb, if_neg hs]
  · unfold process_order_failed_event place_buy_arbitrage_order place_sell_arbitrage_order
    split_ifs <;> simp
  · unfold process_order_created_event
    split_ifs <;> rfl
  · intro s' h
    rcases check_order_status_ok_cases s s' h with h1 | ⟨_, h1⟩ <;> subst h1 <;> rfl
  · intro s' h
    have := control_task_failures_eq env s s' h
    omega

/-- Witness for C3: a failure of the tracked buy order "b1" resubmits the buy
leg on the buying venue and bumps the failure counter from 0 to 1. -/
theorem claim_order_failed_retries_leg_witness :
    process_order_failed_event exEnv "b1" exActiveBothFilled =
      { exActiveBothFilled with
          buy_order := (exEnv.place_order "kucoin" "WETH-USDT" true 10 none),
          cumulative_failures := 1 } :=
  (claim_order_failed_retries_leg exEnv "b1" exActiveBothFilled).1 rfl

/-- C10: the order-failed handler never consults or changes the status: the
result's status equals the input's, the handler commutes with replacing the
status by any status (including the terminal ones), and whenever a leg's order
id matches it still resubmits that leg and increments `cumulative_failures`
by 1, whatever the status is. -/
theorem claim_order_failed_status_blind (env : Env) (oid : String) (s : State) :
    (process_order_failed_event env oid s).arbitrage_status = s.arbitrage_status ∧
    (∀ st, process_order_failed_event env oid { s with arbitrage_status := st } =
      { process_order_failed_event env oid s with arbitrage_status := st }) ∧
    (s.buy_order.order_id = some oid →
      (process_order_failed_event env oid s).cumulative_failures =
          s.cumulative_failures + 1 ∧
      (process_order_failed_event env oid s).buy_order =
        env.place_order s.buying_market.exchange s.buying_market.trading_pair
          true s.order_amount s.last_buy_price) ∧
    (¬ s.buy_order.order_id = some oid → s.sell_order.order_id = some oid →
      (process_order_failed_event env oid s).cumulative_failures =
          s.cumulative_failures + 1 ∧
      (process_order_failed_event env oid s).sell_order =
        env.place_order s.selling_market.exchange s.selling_market.trading_pair
          false s.order_amount s.last_sell_price) := by
  refine ⟨?_, ?_, ?_, ?_⟩
  · unfold process_order_failed_event place_buy_arbitrage_order place_sell_arbitrage_order
    split_ifs <;> rfl
  · intro st
    unfold process_order_failed_event place_buy_arbitrage_order place_sell_arbitrage_order
    split_ifs <;> rfl
  · intro h
    unfold process_order_failed_event place_buy_arbitrage_order
    rw [if_pos h]
    exact ⟨rfl, rfl⟩
  · intro hb h
    unfold process_order_failed_event place_sell_arbitrage_order
    rw [if_neg hb, if_pos h]
    exact ⟨rfl, rfl⟩

/-- Witness for C10: in the terminal status `COMPLETED` the handler still
resubmits the matching buy leg and increments the counter. -/
theorem claim_order_failed_status_blind_witness :
    (process_order_failed_event exEnv "b1" exCompletedState).cumulative_failures =
        exCompletedState.cumulative_failures + 1 ∧
    (process_order_failed_event exEnv "b1" exCompletedState).buy_order =
      exEnv.place_order "kucoin" "WETH-USDT" true 10 none :=
  (claim_order_failed_status_blind exEnv "b1" exCompletedState).2.2.1 rfl

/-- C4: `net_pnl` equals sell notional minus buy notional minus the two
cumulative fees when the status is `COMPLETED` (snapshots present) and is
exactly zero in every other status; `net_pnl_pct` is `net_pnl` divided by the
buy leg's executed amount when `COMPLETED` and exactly zero otherwise.  At the
concrete fills (10 at 100, fee 1) and (10 at 101, fee 1) they are 8 and 0.8. -/
theorem claim_net_pnl_reporting :
    (∀ s bo so, s.arbitrage_status = COMPLETED →
      s.buy_order.order = some bo → s.sell_order.order = some so →
      net_pnl s = some (so.executed_amount * so.average_price
        - bo.executed_amount * bo.average_price
        - (bo.cum_fee_quote + so.cum_fee_quote)) ∧
      net_pnl_pct s = some ((so.executed_amount * so.average_price
        - bo.executed_amount * bo.average_price
        - (bo.cum_fee_quote + so.cum_fee_quote)) / bo.executed_amount)) ∧
    (∀ s, s.arbitrage_status ≠ COMPLETED →
      net_pnl s = some 0 ∧ net_pnl_pct s = some 0) ∧
    (net_pnl exCompletedState = some 8 ∧
      net_pnl_pct exCompletedState = some (4 / 5)) := by
  refine ⟨?_, ?_, ?_, ?_⟩
  · intro s bo so hc hb hs
    constructor
    · simp [net_pnl, hc, hb, hs]
    · simp [net_pnl_pct, net_pnl, hc, hb, hs]
  · intro s h
    constructor
    · simp [net_pnl, h]
    · simp [net_pnl_pct, h]
  · norm_num [net_pnl, exCompletedState, exActiveBothFilled, exConfigState, initState]
  · norm_num [net_pnl_pct, net_pnl, exCompletedState, exActiveBothFilled, exConfigState,
      initState]

/-- Witness for C4 at the spec's Scenario C fills. -/
theorem claim_net_pnl_reporting_witness :
    net_pnl exCompletedState =
      some ((10 : ℚ) * 101 - 10 * 100 - (1 + 1)) ∧
    net_pnl_pct exCompletedState =
      some (((10 : ℚ) * 101 - 10 * 100 - (1 + 1)) / 10) :=
  claim_net_pnl_reporting.1 exCompletedState
    { executed_amount := 10, average_price := 100, cum_fee_quote := 1, is_filled := true }
    { executed_amount := 10, average_price := 101, cum_fee_quote := 1, is_filled := true }
    rfl rfl rfl

/-- C7: the per-leg transaction cost is, for an AMM venue, the gas fee amount
divided by the rate the Rate Service returns for the pair
`"{asset}-{gasToken}"` (the conversion rate used to take the gas-asset amount
into base-asset terms), and for an order-book venue the adapter-computed taker
fee in the given asset; `get_tx_cost_pct` computes both legs' costs in the buy
pair's base asset, records their sum as the run's last observed transaction
cost and returns that sum divided by the order amount. -/
theorem claim_tx_cost_model (env : Env) (s : State) (exch pair asset : String)
    (b : Bool) (amt p r f bf sf : ℚ) :
    (get_resulting_price_for_amount env exch pair b amt = .ok p →
      env.is_amm exch = true →
      env.get_pair_rate
          (asset ++ "-" ++ (env.connectors exch).network_transaction_fee.token) = .ok r →
      get_tx_cost_in_asset env exch pair b amt asset =
        .ok ((env.connectors exch).network_transaction_fee.amount / r)) ∧
    (get_resulting_price_for_amount env exch pair b amt = .ok p →
      env.is_amm exch = false →
      (env.connectors exch).fee_in_token pair asset b amt p = .ok f →
      get_tx_cost_in_asset env exch pair b amt asset = .ok f) ∧
    (get_tx_cost_in_asset env s.buying_market.exchange s.buying_market.trading_pair
        true s.order_amount (split_hb_trading_pair s.buying_market.trading_pair).1 = .ok bf →
      get_tx_cost_in_asset env s.selling_market.exchange s.selling_market.trading_pair
        false s.order_amount (split_hb_trading_pair s.buying_market.trading_pair).1 = .ok sf →
      get_tx_cost_pct env s =
        ({ s with last_tx_cost := some (bf + sf) }, .ok ((bf + sf) / s.order_amount))) := by
  refine ⟨?_, ?_, ?_⟩
  · intro hp hamm hr
    simp [get_tx_cost_in_asset, hp, hamm, hr]
  · intro hp hamm hfee
    simp [get_tx_cost_in_asset, hp, hamm, hfee]
  · exact get_tx_cost_pct_ok env s bf sf

/-- A variant of `exEnv` whose venues are gateway AMM connectors and whose
rate oracle answers 2 for every pair. -/
def exEnvAmm : Env :=
  { exEnv with is_amm := fun _ => true }

/-- Witness for C7: on an AMM venue with gas fee 1 ETH and rate 2, the leg
cost is 1 / 2. -/
theorem claim_tx_cost_model_witness :
    get_tx_cost_in_asset exEnvAmm "uniswap" "WETH-USDT" true 10 "WETH" =
      .ok (1 / 2) :=
  (claim_tx_cost_model exEnvAmm exConfigState "uniswap" "WETH-USDT" "WETH"
    true 10 100 2 0 0 0).1 rfl rfl rfl

/-- The completed run of `exCompletedState` with the last observed prices
(100 / 101) and transaction cost (1/20) recorded by an evaluation. -/
def exReportState : State :=
  { exCompletedState with
    last_buy_price := some 100
    last_sell_price := some 101
    last_tx_cost := some (1 / 20) }

/-- The status report text of `exReportState` (empty on error). -/
def exReportOutput : String :=
  match to_format_status exReportState with
  | .ok out => out
  | .error _ => ""

/-- Of any two adjacent characters, at least one is a newline: equivalently,
every newline-separated line of the text holds at most one character. -/
def singleCharLines : List Char → Bool
  | a :: b :: rest => (a == '\n' || b == '\n') && singleCharLines (b :: rest)
  | _ => true

lemma singleCharLines_newline_cons (l : List Char) :
    singleCharLines ('\n' :: l) = singleCharLines l := by
  cases l with
  | nil => rfl
  | cons b rest => simp [singleCharLines]

lemma singleCharLines_append_newline (l2 : List Char)
    (h2 : singleCharLines l2 = true) :
    ∀ l1, singleCharLines l1 = true → singleCharLines (l1 ++ '\n' :: l2) = true := by
  intro l1
  induction l1 with
  | nil =>
      intro _
      show singleCharLines ('\n' :: l2) = true
      rw [singleCharLines_newline_cons]
      exact h2
  | cons a l1 ih =>
      intro h1
      cases l1 with
      | nil =>
          show ((a == '\n' || '\n' == '\n') && singleCharLines ('\n' :: l2)) = true
          rw [singleCharLines_newline_cons]
          simp [h2]
      | cons b l1' =>
          rw [show singleCharLines (a :: b :: l1') =
              ((a == '\n' || b == '\n') && singleCharLines (b :: l1')) from rfl,
            Bool.and_eq_true] at h1
          show ((a == '\n' || b == '\n') && singleCharLines (b :: (l1' ++ '\n' :: l2))) = true
          rw [Bool.and_eq_true]
          exact ⟨h1.1, ih h1.2⟩

lemma intercalate_go_singleCharLines (as : List String) :
    ∀ acc : String, singleCharLines acc.data = true →
    (∀ a ∈ as, singleCharLines a.data = true) →
    singleCharLines (String.intercalate.go acc "\n" as).data = true := by
  induction as with
  | nil =>
      intro acc hacc _
      exact hacc
  | cons a as ih =>
      intro acc hacc hall
      show singleCharLines (String.intercalate.go (acc ++ "\n" ++ a) "\n" as).data = true
      apply ih
      · rw [show (acc ++ "\n" ++ a).data = acc.data ++ '\n' :: a.data by simp]
        exact singleCharLines_append_newline a.data (hall a (by simp)) acc.data hacc
      · intro x hx
        exact hall x (by simp [hx])

lemma intercalate_singleCharLines (l : List String)
    (hall : ∀ a ∈ l, singleCharLines a.data = true) :
    singleCharLines (String.intercalate "\n" l).data = true := by
  cases l with
  | nil => rfl
  | cons a as =>
      show singleCharLines (String.intercalate.go a "\n" as).data = true
      exact intercalate_go_singleCharLines as a (hall a (by simp))
        (fun x hx => hall x (by simp [hx]))

lemma extendWithChars_singleCharLines (l : List String) (t : String)
    (hl : ∀ a ∈ l, singleCharLines a.data = true) :
    ∀ a ∈ extendWithChars l t, singleCharLines a.data = true := by
  intro a ha
  unfold extendWithChars at ha
  rcases List.mem_append.mp ha with h | h
  · exact hl a h
  · rcases List.mem_map.mp h with ⟨c, _, rfl⟩
    rfl

/-- C8 (code-bug evidence): because `lines.extend(f"...")` iterates the
f-string character by character, `"\n".join(lines)` puts every character of
the report on its own line: whenever `to_format_status` returns a text, of
any two adjacent characters at least one is a newline, i.e. every line of
the artifact holds at most one character — so no line reports a venue name,
a price, a percentage or a total-profit figure.  By contrast a correctly
joined report — whose first line would read like the text below — is not of
that single-character-line shape: the join, not the content, mangles it. -/
theorem claim_format_status_single_char_lines :
    (∀ s out, to_format_status s = .ok out → singleCharLines out.data = true) ∧
    singleCharLines "\nBuy:\n    Exchange: kucoin | Trading Pair: WETH-USDT | Price: 100".data = false := by
  constructor
  · intro s out h
    have hp1 : ∀ t : String, ∀ a ∈ extendWithChars [] t, singleCharLines a.data = true := by
      intro t
      exact extendWithChars_singleCharLines [] t
        (by intro x hx; exact absurd hx (List.not_mem_nil x))
    unfold to_format_status at h
    rcases h1 : reqPrice s.last_sell_price with e | last_sell <;> rw [h1] at h
    · exact Except.noConfusion h
    · rcases h2 : reqPrice s.last_buy_price with e | last_buy <;> rw [h2] at h
      · exact Except.noConfusion h
      · rcases h3 : reqPrice s.last_tx_cost with e | last_cost <;> rw [h3] at h
        · exact Except.noConfusion h
        · replace h :
            (if s.arbitrage_status = COMPLETED then
              match net_pnl_pct s, net_pnl s with
              | some pnl_pct, some pnl =>
                  Except.ok (String.intercalate "\n"
                    (extendWithChars
                      (extendWithChars [] (statusHeaderText s
                        ((last_sell - last_buy) / last_buy)
                        (last_cost / s.order_amount)))
                      (totalProfitText pnl_pct pnl
                        (split_hb_trading_pair s.buying_market.trading_pair).2)))
              | _, _ => Except.error ()
            else
              Except.ok (String.intercalate "\n"
                (extendWithChars [] (statusHeaderText s
                  ((last_sell - last_buy) / last_buy)
                  (last_cost / s.order_amount))))) = Except.ok out := h
          by_cases hc : s.arbitrage_status = COMPLETED
          · rw [if_pos hc] at h
            rcases h4 : net_pnl_pct s with _ | pnl_pct <;>
              rcases h5 : net_pnl s with _ | pnl <;> rw [h4, h5] at h
            · exact Except.noConfusion h
            · exact Except.noConfusion h
            · exact Except.noConfusion h
            · injection h with h6
              subst h6
              exact intercalate_singleCharLines _
                (extendWithChars_singleCharLines _ _ (hp1 _))
          · rw [if_neg hc] at h
            injection h with h6
            subst h6
            exact intercalate_singleCharLines _ (hp1 _)
  · decide

/-- Witness for C8's universally quantified part: the report of the concrete
completed run `exReportState` is of the mangled single-character-line shape. -/
theorem claim_format_status_single_char_lines_witness :
    singleCharLines exReportOutput.data = true :=
  claim_format_status_single_char_lines.1 exReportState exReportOutput rfl

end ArbitrageExecutor
